import Mathlib

/-!
Shallow embedding of the Carrier-Integration-Service repository
(TypeScript) for specification checking.

Modelling conventions:
* JavaScript exceptions are modelled by `Except JsError`; a thrown
  `CarrierIntegrationError` is `JsError.carrier`, any other thrown
  `Error` is `JsError.plain` carrying its message.
* Machine numbers that the code treats as integers (HTTP status codes,
  epoch milliseconds, `expires_in`) are `Int`; JS floating-point values
  produced by `parseFloat` are modelled exactly by `JsFloat`
  (a rational, or an infinity; `none` at the `Option` layer stands for
  `NaN`).  None of the verified claims depends on float rounding.
* `Date.now()` is passed in explicitly as `now : Int` (epoch ms).
* An HTTP round trip is represented by its outcome: either a thrown
  transport error or an `HttpResponse` (status + parsed body); response
  headers are not used by any modelled code path and are omitted.
-/

deriving instance DecidableEq for Except

namespace CarrierIntegration

/-! ### src/domain/errors.ts -/

inductive ErrorCode
  | AUTH_FAILED
  | RATE_LIMITED
  | INVALID_REQUEST
  | CARRIER_UNAVAILABLE
  | MALFORMED_RESPONSE
  | NETWORK_ERROR
  | TIMEOUT
  deriving DecidableEq

/-- `CarrierIntegrationError`: code, message, optional cause.  The cause
is always a plain `Error` in every modelled path, so it is represented
by its message string. -/
structure CIError where
  code : ErrorCode
  message : String
  cause : Option String := none
  deriving DecidableEq

/-- A thrown JavaScript value: either a classified
`CarrierIntegrationError` or some other `Error` (kept as its message). -/
inductive JsError
  | carrier (e : CIError)
  | plain (msg : String)
  deriving DecidableEq

/-! ### src/http/client.ts -/

structure HttpResponse (T : Type) where
  status : Int
  body : T
  deriving DecidableEq

/-! ### src/auth/oauth.ts -/

structure OAuthToken where
  accessToken : String
  expiresAt : Int
  tokenType : String
  deriving DecidableEq

/-- Body of the token-endpoint response.  `Option` models an absent
field; JS falsiness additionally treats `""` and `0` as missing. -/
structure TokenResponseBody where
  access_token : Option String
  token_type : Option String
  expires_in : Option Int
  deriving DecidableEq

/-- JS truthiness of an optional string field. -/
def truthyStr : Option String → Bool
  | none => false
  | some s => s ≠ ""

/-- JS truthiness of an optional integer field. -/
def truthyInt : Option Int → Bool
  | none => false
  | some n => n ≠ 0

namespace OAuthClient

/-- `isTokenValid`: strictly before expiry minus the 60 s buffer. -/
def isTokenValid (now : Int) (token : OAuthToken) : Bool :=
  now < token.expiresAt - 60000

/-- `acquireToken`, as a function of the token-endpoint round trip's
outcome (`tokenResp`).  Mirrors the try/catch: classified errors pass
through, other errors are wrapped as `AUTH_FAILED`. -/
def acquireToken (now : Int) (tokenResp : Except JsError (HttpResponse TokenResponseBody)) :
    Except JsError OAuthToken :=
  match tokenResp with
  | .error (.carrier e) => .error (.carrier e)
  | .error (.plain msg) =>
      .error (.carrier ⟨ErrorCode.AUTH_FAILED, "Failed to acquire OAuth token", some msg⟩)
  | .ok response =>
      if response.status = 200 then
        if truthyStr response.body.access_token && truthyInt response.body.expires_in then
          .ok { accessToken := response.body.access_token.getD ""
                tokenType := if truthyStr response.body.token_type then
                    response.body.token_type.getD "" else "Bearer"
                expiresAt := now + (response.body.expires_in.getD 0) * 1000 }
        else
          .error (.carrier ⟨ErrorCode.MALFORMED_RESPONSE,
            "OAuth response missing required fields", some "Invalid OAuth response structure"⟩)
      else
        .error (.carrier ⟨ErrorCode.AUTH_FAILED,
          "OAuth token request failed with status " ++ toString response.status,
          some ("HTTP " ++ toString response.status)⟩)

/-- Result of one (sequential) `getAccessToken` call: the value returned
or error thrown, the client's cached token afterwards, and how many
outbound token requests were issued. -/
structure GetTokenResult where
  result : Except JsError String
  token : Option OAuthToken
  requests : Nat
  deriving DecidableEq

/-- `getAccessToken` in the sequential case (no acquisition already in
flight; `tokenRefreshPromise` is modelled in the concurrency section).
`cached` is `this.token`; `tokenResp` is the outcome the token endpoint
would give if contacted. -/
def getAccessToken (now : Int) (cached : Option OAuthToken)
    (tokenResp : Except JsError (HttpResponse TokenResponseBody)) : GetTokenResult :=
  match cached with
  | some t =>
      if isTokenValid now t then ⟨.ok t.accessToken, some t, 0⟩
      else
        match acquireToken now tokenResp with
        | .ok newToken => ⟨.ok newToken.accessToken, some newToken, 1⟩
        | .error e => ⟨.error e, some t, 1⟩
  | none =>
      match acquireToken now tokenResp with
      | .ok newToken => ⟨.ok newToken.accessToken, some newToken, 1⟩
      | .error e => ⟨.error e, none, 1⟩

end OAuthClient

/-! ### JavaScript `parseFloat`

Exact model of the ECMAScript `parseFloat` builtin on the strings the
adapter feeds it: leading whitespace is skipped, an optional sign, then
the longest prefix that is `Infinity` or a decimal literal
(`digits [. digits] [exponent]` or `. digits [exponent]`); trailing
garbage is ignored.  `none` models `NaN` (no parsable prefix). -/

inductive JsFloat
  | num (q : ℚ)
  | inf
  | negInf
  deriving DecidableEq

def digitsToNat (cs : List Char) : Nat :=
  cs.foldl (fun acc c => acc * 10 + (c.toNat - 48)) 0

def takeDigits (cs : List Char) : List Char × List Char :=
  (cs.takeWhile Char.isDigit, cs.dropWhile Char.isDigit)

/-- Exponent part after a consumed `e`/`E`: `none` when no digits
follow (the `e` then never belonged to the literal). -/
def expValue (cs : List Char) : Option Int :=
  match cs with
  | '+' :: rest =>
      let d := rest.takeWhile Char.isDigit
      if d.isEmpty then none else some (digitsToNat d : Int)
  | '-' :: rest =>
      let d := rest.takeWhile Char.isDigit
      if d.isEmpty then none else some (-(digitsToNat d : Int))
  | _ =>
      let d := cs.takeWhile Char.isDigit
      if d.isEmpty then none else some (digitsToNat d : Int)

def applyExponent (base : ℚ) (cs : List Char) : ℚ :=
  match cs with
  | 'e' :: rest =>
      match expValue rest with
      | some e => base * (10 : ℚ) ^ e
      | none => base
  | 'E' :: rest =>
      match expValue rest with
      | some e => base * (10 : ℚ) ^ e
      | none => base
  | _ => base

/-- Longest decimal-literal prefix (without sign); `none` when the
significand is empty. -/
def parseDecimalPrefix (cs : List Char) : Option ℚ :=
  match takeDigits cs with
  | (intPart, rest) =>
    match rest with
    | '.' :: rest2 =>
        match takeDigits rest2 with
        | (fracPart, rest3) =>
          if intPart.isEmpty && fracPart.isEmpty then none
          else
            some (applyExponent
              ((digitsToNat intPart : ℚ) + (digitsToNat fracPart : ℚ) / (10 : ℚ) ^ fracPart.length)
              rest3)
    | _ =>
        if intPart.isEmpty then none
        else some (applyExponent (digitsToNat intPart : ℚ) rest)

def parseSignless (cs : List Char) (neg : Bool) : Option JsFloat :=
  if cs.take 8 = "Infinity".toList then some (if neg then .negInf else .inf)
  else
    match parseDecimalPrefix cs with
    | some q => some (.num (if neg then -q else q))
    | none => none

def jsWhitespace (c : Char) : Bool :=
  c = ' ' || c = '\t' || c = '\n' || c = '\r' || c = '\x0b' || c = '\x0c'

def parseFloat (s : String) : Option JsFloat :=
  match s.toList.dropWhile jsWhitespace with
  | '+' :: rest => parseSignless rest false
  | '-' :: rest => parseSignless rest true
  | cs => parseSignless cs false

/-! ### src/domain/types.ts -/

structure Address where
  street : List String
  city : String
  stateOrProvince : String
  postalCode : String
  country : String
  deriving DecidableEq

structure Dimensions where
  length : ℚ
  width : ℚ
  height : ℚ
  deriving DecidableEq

structure Package where
  weight : ℚ
  dimensions : Option Dimensions
  deriving DecidableEq

structure RateRequest where
  origin : Address
  destination : Address
  packages : List Package
  serviceLevel : Option String
  deriving DecidableEq

/-- Domain `RateQuote`.  `carrierQuoteId` (built from `Date.now()` and
never consumed by modelled code) is omitted. -/
structure RateQuote where
  carrier : String
  serviceLevel : String
  serviceName : String
  totalCost : JsFloat
  currency : String
  estimatedDays : Option Int
  deriving DecidableEq

/-! ### src/domain/validation.ts (Zod schemas) -/

def validAddress (a : Address) : Bool :=
  1 ≤ a.street.length && a.street.all (fun s => 1 ≤ s.length) &&
    1 ≤ a.city.length && 1 ≤ a.stateOrProvince.length &&
    1 ≤ a.postalCode.length && a.country.length = 2

def validPackage (p : Package) : Bool :=
  decide (0 < p.weight) &&
    (match p.dimensions with
     | none => true
     | some d => decide (0 < d.length) && decide (0 < d.width) && decide (0 < d.height))

def validRateRequest (r : RateRequest) : Bool :=
  validAddress r.origin && validAddress r.destination &&
    1 ≤ r.packages.length && r.packages.all validPackage

/-! ### src/carriers/ups/types.ts (response side) -/

structure UPSCharges where
  CurrencyCode : Option String
  MonetaryValue : Option String
  deriving DecidableEq

/-- `GuaranteedDelivery`.  The `Date` string is represented by its
parsed epoch value `new Date(s).getTime()` in ms; a falsy (empty) or
unparsable date string is outside the model. -/
structure UPSGuaranteedDelivery where
  Date : Option Int
  deriving DecidableEq

structure UPSService where
  Code : Option String
  Description : Option String
  deriving DecidableEq

structure UPSAlert where
  Code : Option String
  Description : Option String
  deriving DecidableEq

structure UPSResponseStatus where
  Code : Option String
  Description : Option String
  deriving DecidableEq

structure UPSResponseMeta where
  ResponseStatus : Option UPSResponseStatus
  Alert : Option (List UPSAlert)
  deriving DecidableEq

structure UPSRatedShipment where
  Service : Option UPSService
  TransportationCharges : Option UPSCharges
  TotalCharges : Option UPSCharges
  GuaranteedDelivery : Option UPSGuaranteedDelivery
  deriving DecidableEq

structure UPSRateResponseInner where
  Response : Option UPSResponseMeta
  RatedShipment : Option (List UPSRatedShipment)
  deriving DecidableEq

structure UPSRateResponse where
  RateResponse : Option UPSRateResponseInner
  deriving DecidableEq

/-! ### src/carriers/ups/adapter.ts -/

namespace UPSAdapter

/-- JS `a || 'default'` on an optional string: falsy (absent or empty)
falls through to the default. -/
def orDefault (o : Option String) (d : String) : String :=
  match o with
  | some s => if s = "" then d else s
  | none => d

def msPerDay : Int := 1000 * 60 * 60 * 24

/-- `Math.ceil(diffTime / msPerDay)` on integer millisecond inputs:
exact ceiling of the rational quotient. -/
def jsCeilDiv (a b : Int) : Int := -(Int.ediv (-a) b)

/-- The `estimatedDays` computation for a present delivery date, ending
with `if (estimatedDays < 0) estimatedDays = undefined`. -/
def estimatedDaysFrom (now deliveryMs : Int) : Option Int :=
  let e := jsCeilDiv (deliveryMs - now) msPerDay
  if e < 0 then none else some e

/-- `shipment.TotalCharges || shipment.TransportationCharges` (an
object is truthy whenever present). -/
def chargesOf (shipment : UPSRatedShipment) : Option UPSCharges :=
  match shipment.TotalCharges with
  | some c => some c
  | none => shipment.TransportationCharges

/-- Body of the `RatedShipment.map` callback in `transformResponse`. -/
def shipmentToQuote (now : Int) (shipment : UPSRatedShipment) : Except CIError RateQuote :=
  let serviceCode := orDefault (shipment.Service.bind UPSService.Code) "UNKNOWN"
  let serviceName := orDefault (shipment.Service.bind UPSService.Description) "Unknown Service"
  match chargesOf shipment with
  | none =>
      .error ⟨ErrorCode.MALFORMED_RESPONSE, "UPS response missing charge information", none⟩
  | some totalCharges =>
    match totalCharges.MonetaryValue with
    | none =>
        .error ⟨ErrorCode.MALFORMED_RESPONSE, "UPS response missing charge information", none⟩
    | some mv =>
      if mv = "" then
        .error ⟨ErrorCode.MALFORMED_RESPONSE, "UPS response missing charge information", none⟩
      else
        match parseFloat mv with
        | none =>
            .error ⟨ErrorCode.MALFORMED_RESPONSE, "Invalid cost value: " ++ mv, none⟩
        | some cost =>
            .ok { carrier := "UPS"
                  serviceLevel := serviceCode
                  serviceName := serviceName
                  totalCost := cost
                  currency := orDefault totalCharges.CurrencyCode "USD"
                  estimatedDays :=
                    match shipment.GuaranteedDelivery with
                    | some g =>
                        match g.Date with
                        | some d => estimatedDaysFrom now d
                        | none => none
                    | none => none }

/-- JS `Array.prototype.map` with a throwing callback: stops at the
first exception. -/
def mapShipments (now : Int) : List UPSRatedShipment → Except CIError (List RateQuote)
  | [] => .ok []
  | s :: rest =>
      match shipmentToQuote now s with
      | .error e => .error e
      | .ok q =>
          match mapShipments now rest with
          | .error e => .error e
          | .ok qs => .ok (q :: qs)

/-- Error-description fallback chain used on a non-success envelope. -/
def descFallback (rr : UPSRateResponseInner) : String :=
  orDefault ((rr.Response.bind UPSResponseMeta.ResponseStatus).bind UPSResponseStatus.Description)
    (orDefault (((rr.Response.bind UPSResponseMeta.Alert).bind List.head?).bind UPSAlert.Description)
      "Unknown UPS error")

/-- `transformResponse`. -/
def transformResponse (now : Int) (response : UPSRateResponse) : Except CIError (List RateQuote) :=
  match response.RateResponse with
  | none =>
      .error ⟨ErrorCode.MALFORMED_RESPONSE, "UPS response missing RateResponse", none⟩
  | some rateResponse =>
    if (rateResponse.Response.bind UPSResponseMeta.ResponseStatus).bind UPSResponseStatus.Code
        = some "1" then
      match rateResponse.RatedShipment with
      | none => .ok []
      | some shipments =>
          if shipments.length = 0 then .ok []
          else mapShipments now shipments
    else
      .error ⟨ErrorCode.INVALID_REQUEST, "UPS API error: " ++ descFallback rateResponse, none⟩

/-- Outcomes of the external interactions one `getRates` call can make:
the first rating dispatch, and — only reached on a 401 — the token
endpoint's response to the re-acquisition and the retried dispatch. -/
structure AdapterEnv where
  now : Int
  first : Except JsError (HttpResponse UPSRateResponse)
  tokenResp : Except JsError (HttpResponse TokenResponseBody)
  retry : Except JsError (HttpResponse UPSRateResponse)
  deriving DecidableEq

/-- The catch block of `getRates`: classified errors pass through,
`Request timeout` becomes TIMEOUT, anything else NETWORK_ERROR (with
the original error as cause). -/
def classifyCatch (r : Except JsError (List RateQuote)) : Except CIError (List RateQuote) :=
  match r with
  | .ok qs => .ok qs
  | .error (.carrier e) => .error e
  | .error (.plain msg) =>
      if msg = "Request timeout" then
        .error ⟨ErrorCode.TIMEOUT, "UPS API request timed out", some msg⟩
      else
        .error ⟨ErrorCode.NETWORK_ERROR, "Network error communicating with UPS API", some msg⟩

/-- Lift a `transformResponse` result into the try block (every error
it throws is a `CarrierIntegrationError`). -/
def liftCI {α : Type} (r : Except CIError α) : Except JsError α :=
  match r with
  | .ok a => .ok a
  | .error e => .error (.carrier e)

/-- Result of one adapter `getRates` call. `oauthToken` is the OAuth
client's cached token after the call (the initial `getAccessToken` that
produced `accessToken` has already happened); `dispatchTokens` lists
the bearer token used by each rating dispatch, in order. -/
structure AdapterResult where
  result : Except CIError (List RateQuote)
  oauthToken : Option OAuthToken
  dispatchTokens : List String
  deriving DecidableEq

/-- `UPSAdapter.getRates` from the point of the first rating dispatch:
`cached` is the OAuth client's token state and `accessToken` the string
the initial `getAccessToken` returned.  On a 401 the cached token is
cleared (`clearToken`, hence the `none` passed to `getAccessToken`),
a token is re-acquired and the dispatch retried once with it; the retry
response's body goes straight to `transformResponse`. -/
def getRates (env : AdapterEnv) (cached : Option OAuthToken) (accessToken : String) :
    AdapterResult :=
  match env.first with
  | .error e =>
      ⟨classifyCatch (.error e), cached, [accessToken]⟩
  | .ok response =>
    if response.status = 401 then
      match OAuthClient.getAccessToken env.now none env.tokenResp with
      | acq =>
        match acq.result with
        | .error e => ⟨classifyCatch (.error e), acq.token, [accessToken]⟩
        | .ok newToken =>
          match env.retry with
          | .error e => ⟨classifyCatch (.error e), acq.token, [accessToken, newToken]⟩
          | .ok retryResponse =>
              ⟨classifyCatch (liftCI (transformResponse env.now retryResponse.body)),
                acq.token, [accessToken, newToken]⟩
    else if response.status = 429 then
      ⟨.error ⟨ErrorCode.RATE_LIMITED, "UPS API rate limit exceeded", none⟩,
        cached, [accessToken]⟩
    else if 500 ≤ response.status then
      ⟨.error ⟨ErrorCode.CARRIER_UNAVAILABLE,
          "UPS API returned server error: " ++ toString response.status, none⟩,
        cached, [accessToken]⟩
    else if response.status ≠ 200 then
      ⟨.error ⟨ErrorCode.INVALID_REQUEST,
          "UPS API returned error status: " ++ toString response.status, none⟩,
        cached, [accessToken]⟩
    else
      ⟨classifyCatch (liftCI (transformResponse env.now response.body)),
        cached, [accessToken]⟩

end UPSAdapter

/-! ### src/service.ts — `CarrierIntegrationService` facade -/

namespace CarrierIntegrationService

/-- One configured carrier, represented by its name and the outcome its
`getRates` would produce for the request at hand. -/
structure CarrierRun where
  name : String
  outcome : Except JsError (List RateQuote)
  deriving DecidableEq

/-- Quotes a carrier contributes after the per-carrier `.catch`: a
rejection is logged and replaced by the empty list. -/
def caughtQuotes (c : CarrierRun) : List RateQuote :=
  match c.outcome with
  | .ok qs => qs
  | .error _ => []

/-- `CarrierIntegrationService.getRates`: validate, fan out, swallow
per-carrier failures, flatten.  The Zod failure message is abstracted
to a fixed string. -/
def getRates (request : RateRequest) (carriers : List CarrierRun) :
    Except CIError (List RateQuote) :=
  if validRateRequest request then
    .ok ((carriers.map caughtQuotes).flatten)
  else
    .error ⟨ErrorCode.INVALID_REQUEST, "Invalid rate request", none⟩

end CarrierIntegrationService

/-! ### Concurrency model for `OAuthClient.getAccessToken`

JavaScript runs the synchronous prefix of each async call atomically up
to its first `await`.  For callers that overlap one token acquisition,
the relevant atomic segments are:

* segment A (start of `getAccessToken` up to awaiting
  `tokenRefreshPromise`): read the cache, then either return the valid
  token, join the in-flight acquisition, or create it (issuing the one
  outbound request and setting `tokenRefreshPromise`);
* settlement: when the acquisition settles, the creator's continuation
  installs the token on success and in all cases clears
  `tokenRefreshPromise` in its `finally`; waiters' continuations only
  read the settled value.

Any interleaving of N concurrent calls that all start before the
acquisition settles is, therefore, some sequence of N A-segments
followed by the settlement continuations; waiters do not write shared
state, so the continuation order is irrelevant. -/

namespace OAuthClient

structure ConcState where
  token : Option OAuthToken
  inflight : Bool
  requests : Nat
  deriving DecidableEq

inductive CallerRole
  | immediate (tok : String)
  | waiter
  | creator
  deriving DecidableEq

/-- Cache-miss path of segment A. -/
def joinOrCreate (st : ConcState) : ConcState × CallerRole :=
  if st.inflight then (st, .waiter)
  else ({ st with inflight := true, requests := st.requests + 1 }, .creator)

/-- Segment A of one `getAccessToken` call. -/
def segA (now : Int) (st : ConcState) : ConcState × CallerRole :=
  match st.token with
  | some t => if isTokenValid now t then (st, .immediate t.accessToken) else joinOrCreate st
  | none => joinOrCreate st

/-- Run the A-segments of `n` callers in arrival order. -/
def runCallers (now : Int) : Nat → ConcState → ConcState × List CallerRole
  | 0, st => (st, [])
  | n + 1, st =>
      let p := segA now st
      let q := runCallers now n p.1
      (q.1, p.2 :: q.2)

/-- Value a caller's continuation produces once the acquisition has
settled with `outcome`. -/
def settleRole (outcome : Except JsError OAuthToken) : CallerRole → Except JsError String
  | .immediate tok => .ok tok
  | .waiter => outcome.map OAuthToken.accessToken
  | .creator => outcome.map OAuthToken.accessToken

/-- Shared state after the creator's continuation (if any) has run:
token installed on success, `tokenRefreshPromise` cleared either way. -/
def settleState (outcome : Except JsError OAuthToken) (roles : List CallerRole)
    (st : ConcState) : ConcState :=
  if roles.contains .creator then
    match outcome with
    | .ok t => { st with token := some t, inflight := false }
    | .error _ => { st with inflight := false }
  else st

/-- `n` concurrent `getAccessToken` calls all starting before the
acquisition (if one is triggered) settles with `outcome`. -/
def runConcurrent (now : Int) (n : Nat) (st0 : ConcState)
    (outcome : Except JsError OAuthToken) : ConcState × List (Except JsError String) :=
  let p := runCallers now n st0
  (settleState outcome p.2 p.1, p.2.map (settleRole outcome))

end OAuthClient

/-! ## Theorems -/

namespace OAuthClient

/-- C3: with a cached token expiring at `T = t.expiresAt` (ms), a
`getAccessToken` call returns the cached string with no outbound
request exactly when `now` is strictly before `T − 60 s`; from
`T − 60 s` on, an acquisition is triggered instead. -/
theorem getAccessToken_buffer_boundary (now : Int) (t : OAuthToken)
    (tokenResp : Except JsError (HttpResponse TokenResponseBody)) :
    ((getAccessToken now (some t) tokenResp).requests = 0 ∧
        (getAccessToken now (some t) tokenResp).result = .ok t.accessToken ∧
        (getAccessToken now (some t) tokenResp).token = some t
      ↔ now < t.expiresAt - 60000) ∧
    (t.expiresAt - 60000 ≤ now → (getAccessToken now (some t) tokenResp).requests = 1) := by
  constructor
  · constructor
    · rintro ⟨hreq, -, -⟩
      by_contra hlt
      have hvalid : isTokenValid now t = false := by
        simp [isTokenValid]
        omega
      simp only [getAccessToken, hvalid, Bool.false_eq_true, if_false] at hreq
      cases hacq : acquireToken now tokenResp <;> simp [hacq] at hreq
    · intro hlt
      have hvalid : isTokenValid now t = true := by
        simp [isTokenValid]
        omega
      simp [getAccessToken, hvalid]
  · intro hge
    have hvalid : isTokenValid now t = false := by
      simp [isTokenValid]
      omega
    simp only [getAccessToken, hvalid, Bool.false_eq_true, if_false]
    cases hacq : acquireToken now tokenResp <;> simp [hacq]

/-- C3 witness: boundary behavior at concrete instants.  Expiry is at
100000 ms; at `now = 39999` (strictly before `T − 60 s`) the cached
token is returned with no request, at `now = 40000` (exactly `T − 60 s`)
a request is issued. -/
theorem getAccessToken_buffer_boundary_witness :
    (getAccessToken 39999 (some ⟨"cached", 100000, "Bearer"⟩)
        (.error (.plain "net down"))).requests = 0 ∧
    (getAccessToken 39999 (some ⟨"cached", 100000, "Bearer"⟩)
        (.error (.plain "net down"))).result = .ok "cached" ∧
    (getAccessToken 40000 (some ⟨"cached", 100000, "Bearer"⟩)
        (.error (.plain "net down"))).requests = 1 := by
  refine ⟨?_, ?_, ?_⟩
  · exact (((getAccessToken_buffer_boundary 39999 ⟨"cached", 100000, "Bearer"⟩
      (.error (.plain "net down"))).1.mpr (by decide)).1)
  · exact (((getAccessToken_buffer_boundary 39999 ⟨"cached", 100000, "Bearer"⟩
      (.error (.plain "net down"))).1.mpr (by decide)).2.1)
  · exact ((getAccessToken_buffer_boundary 40000 ⟨"cached", 100000, "Bearer"⟩
      (.error (.plain "net down"))).2 (by decide))

/-- C5: token-acquisition outcome classification.  A non-200 response
fails AUTH_FAILED with the status in the message; a 200 response with a
falsy access token or expiry fails MALFORMED_RESPONSE; a plain
transport failure is wrapped as AUTH_FAILED while an already classified
error passes through unchanged; on success the token expires at
`now + expires_in * 1000` and wholly replaces the cached token. -/
theorem acquireToken_classification (now : Int)
    (tokenResp : Except JsError (HttpResponse TokenResponseBody)) :
    (∀ r, tokenResp = .ok r → r.status ≠ 200 →
      acquireToken now tokenResp = .error (.carrier ⟨ErrorCode.AUTH_FAILED,
        "OAuth token request failed with status " ++ toString r.status,
        some ("HTTP " ++ toString r.status)⟩)) ∧
    (∀ r, tokenResp = .ok r → r.status = 200 →
      (truthyStr r.body.access_token = false ∨ truthyInt r.body.expires_in = false) →
      acquireToken now tokenResp = .error (.carrier ⟨ErrorCode.MALFORMED_RESPONSE,
        "OAuth response missing required fields", some "Invalid OAuth response structure"⟩)) ∧
    (∀ m, tokenResp = .error (.plain m) →
      acquireToken now tokenResp = .error (.carrier ⟨ErrorCode.AUTH_FAILED,
        "Failed to acquire OAuth token", some m⟩)) ∧
    (∀ e, tokenResp = .error (.carrier e) →
      acquireToken now tokenResp = .error (.carrier e)) ∧
    (∀ r s n, tokenResp = .ok r → r.status = 200 →
      r.body.access_token = some s → s ≠ "" → r.body.expires_in = some n → n ≠ 0 →
      ∃ tt, acquireToken now tokenResp = .ok ⟨s, now + n * 1000, tt⟩ ∧
        ∀ t0, isTokenValid now t0 = false →
          (getAccessToken now (some t0) tokenResp).token = some ⟨s, now + n * 1000, tt⟩ ∧
          (getAccessToken now (some t0) tokenResp).result = .ok s) := by
  refine ⟨?_, ?_, ?_, ?_, ?_⟩
  · rintro r rfl hne
    simp [acquireToken, hne]
  · rintro r rfl h200 hfalsy
    rcases hfalsy with h | h <;> simp [acquireToken, h200, h]
  · rintro m rfl
    simp [acquireToken]
  · rintro e rfl
    simp [acquireToken]
  · rintro r s n rfl h200 hs hsne hn hnne
    have hacq : acquireToken now (.ok r) = .ok
        ⟨s, now + n * 1000,
          if truthyStr r.body.token_type then r.body.token_type.getD "" else "Bearer"⟩ := by
      simp [acquireToken, h200, hs, hn, truthyStr, truthyInt, hsne, hnne]
    refine ⟨_, hacq, ?_⟩
    intro t0 hinvalid
    simp [getAccessToken, hinvalid, hacq]

/-- C5 witness: concrete instances of each classification branch and of
the success path (token cached wholesale with the computed expiry). -/
theorem acquireToken_classification_witness :
    acquireToken 5 (.ok ⟨503, ⟨some "a", some "Bearer", some 60⟩⟩)
      = .error (.carrier ⟨ErrorCode.AUTH_FAILED,
          "OAuth token request failed with status 503", some "HTTP 503"⟩) ∧
    acquireToken 5 (.error (.plain "socket hang up"))
      = .error (.carrier ⟨ErrorCode.AUTH_FAILED,
          "Failed to acquire OAuth token", some "socket hang up"⟩) ∧
    acquireToken 5 (.error (.carrier ⟨ErrorCode.RATE_LIMITED, "slow down", none⟩))
      = .error (.carrier ⟨ErrorCode.RATE_LIMITED, "slow down", none⟩) ∧
    (∃ tt, (getAccessToken 5 (some ⟨"old", 0, "Bearer"⟩)
        (.ok ⟨200, ⟨some "fresh", some "Bearer", some 60⟩⟩)).token
      = some ⟨"fresh", 5 + 60 * 1000, tt⟩) ∧
    (getAccessToken 5 (some ⟨"old", 0, "Bearer"⟩)
        (.ok ⟨200, ⟨some "fresh", some "Bearer", some 60⟩⟩)).result = .ok "fresh" := by
  refine ⟨?_, ?_, ?_, ?_, ?_⟩
  · exact (acquireToken_classification 5 (.ok ⟨503, ⟨some "a", some "Bearer", some 60⟩⟩)).1
      ⟨503, ⟨some "a", some "Bearer", some 60⟩⟩ rfl (by decide)
  · exact (acquireToken_classification 5 (.error (.plain "socket hang up"))).2.2.1
      "socket hang up" rfl
  · exact (acquireToken_classification 5
      (.error (.carrier ⟨ErrorCode.RATE_LIMITED, "slow down", none⟩))).2.2.2.1
      ⟨ErrorCode.RATE_LIMITED, "slow down", none⟩ rfl
  · obtain ⟨tt, -, hcache⟩ := (acquireToken_classification 5
      (.ok ⟨200, ⟨some "fresh", some "Bearer", some 60⟩⟩)).2.2.2.2
      ⟨200, ⟨some "fresh", some "Bearer", some 60⟩⟩ "fresh" 60 rfl rfl rfl
      (by decide) rfl (by decide)
    exact ⟨tt, (hcache ⟨"old", 0, "Bearer"⟩ (by decide)).1⟩
  · obtain ⟨tt, -, hcache⟩ := (acquireToken_classification 5
      (.ok ⟨200, ⟨some "fresh", some "Bearer", some 60⟩⟩)).2.2.2.2
      ⟨200, ⟨some "fresh", some "Bearer", some 60⟩⟩ "fresh" 60 rfl rfl rfl
      (by decide) rfl (by decide)
    exact (hcache ⟨"old", 0, "Bearer"⟩ (by decide)).2

/-- C10: a 200 token response in which both required fields are present
but one is falsy (`access_token = ""` or `expires_in = 0`) fails with
MALFORMED_RESPONSE — presence is decided by JS falsiness, not by
absence from the body. -/
theorem acquireToken_falsy_required_fields (now : Int) (r : HttpResponse TokenResponseBody)
    (hs : r.status = 200)
    (_ha : ∃ a, r.body.access_token = some a) (_he : ∃ n, r.body.expires_in = some n)
    (hfalsy : r.body.access_token = some "" ∨ r.body.expires_in = some 0) :
    acquireToken now (.ok r) = .error (.carrier ⟨ErrorCode.MALFORMED_RESPONSE,
      "OAuth response missing required fields", some "Invalid OAuth response structure"⟩) := by
  rcases hfalsy with h | h <;> simp [acquireToken, hs, h, truthyStr, truthyInt]

/-- C10 witness: `expires_in = 0` with a present access token, and an
empty access token with a positive expiry, both fail MALFORMED. -/
theorem acquireToken_falsy_required_fields_witness :
    acquireToken 0 (.ok ⟨200, ⟨some "tok", some "Bearer", some 0⟩⟩)
      = .error (.carrier ⟨ErrorCode.MALFORMED_RESPONSE,
          "OAuth response missing required fields", some "Invalid OAuth response structure"⟩) ∧
    acquireToken 0 (.ok ⟨200, ⟨some "", some "Bearer", some 3600⟩⟩)
      = .error (.carrier ⟨ErrorCode.MALFORMED_RESPONSE,
          "OAuth response missing required fields", some "Invalid OAuth response structure"⟩) :=
  ⟨acquireToken_falsy_required_fields 0 ⟨200, ⟨some "tok", some "Bearer", some 0⟩⟩
      rfl ⟨"tok", rfl⟩ ⟨0, rfl⟩ (Or.inr rfl),
    acquireToken_falsy_required_fields 0 ⟨200, ⟨some "", some "Bearer", some 3600⟩⟩
      rfl ⟨"", rfl⟩ ⟨3600, rfl⟩ (Or.inl rfl)⟩

/-- Helper: a caller arriving while an acquisition is in flight and no
valid token is cached becomes a waiter and leaves the state unchanged. -/
theorem segA_waiter (now : Int) (st : ConcState)
    (hTok : ∀ t, st.token = some t → isTokenValid now t = false)
    (hIn : st.inflight = true) : segA now st = (st, .waiter) := by
  unfold segA joinOrCreate
  cases htok : st.token with
  | none => simp [hIn]
  | some t => simp [hTok t htok, hIn]

/-- Helper: every caller arriving while the acquisition is in flight is
a waiter; the shared state is untouched. -/
theorem runCallers_waiters (now : Int) (n : Nat) (st : ConcState)
    (hTok : ∀ t, st.token = some t → isTokenValid now t = false)
    (hIn : st.inflight = true) :
    runCallers now n st = (st, List.replicate n .waiter) := by
  induction n with
  | zero => simp [runCallers]
  | succ m ih =>
      unfold runCallers
      rw [segA_waiter now st hTok hIn]
      simp only []
      rw [ih]
      simp [List.replicate]

/-- C2: with no valid cached token and no acquisition in flight, any
interleaving of `n ≥ 1` concurrent `getAccessToken` calls that all
start before the acquisition settles issues exactly one outbound token
request; every caller resolves to the same settled value (the one token
string on success, the same failure otherwise); the in-flight marker is
cleared once the acquisition settles, in success and in failure alike,
and on success the settled token is cached. -/
theorem getAccessToken_single_flight (now : Int) (n : Nat) (st0 : ConcState)
    (outcome : Except JsError OAuthToken) (hn : 1 ≤ n)
    (hTok : ∀ t, st0.token = some t → isTokenValid now t = false)
    (hIn : st0.inflight = false) (hReq : st0.requests = 0) :
    (runConcurrent now n st0 outcome).1.requests = 1 ∧
    (runConcurrent now n st0 outcome).1.inflight = false ∧
    (runConcurrent now n st0 outcome).2
      = List.replicate n (outcome.map OAuthToken.accessToken) ∧
    (∀ t, outcome = .ok t → (runConcurrent now n st0 outcome).1.token = some t) := by
  obtain ⟨m, rfl⟩ : ∃ m, n = m + 1 := ⟨n - 1, by omega⟩
  have hseg : segA now st0
      = ({ st0 with inflight := true, requests := st0.requests + 1 }, .creator) := by
    unfold segA joinOrCreate
    cases htok : st0.token with
    | none => simp [hIn]
    | some t => simp [hTok t htok, hIn]
  have hrest : runCallers now m { st0 with inflight := true, requests := st0.requests + 1 }
      = ({ st0 with inflight := true, requests := st0.requests + 1 },
          List.replicate m .waiter) :=
    runCallers_waiters now m _ (fun t ht => hTok t ht) rfl
  have hrun : runCallers now (m + 1) st0
      = ({ st0 with inflight := true, requests := st0.requests + 1 },
          .creator :: List.replicate m .waiter) := by
    unfold runCallers
    rw [hseg]
    simp only []
    rw [hrest]
  have hcontains : (CallerRole.creator :: List.replicate m .waiter).contains .creator = true := by
    simp [List.contains]
  refine ⟨?_, ?_, ?_, ?_⟩
  · unfold runConcurrent
    rw [hrun]
    cases outcome <;> simp [settleState, hcontains, hReq]
  · unfold runConcurrent
    rw [hrun]
    cases outcome <;> simp [settleState, hcontains]
  · unfold runConcurrent
    rw [hrun]
    simp [settleRole, List.replicate]
  · intro t hout
    unfold runConcurrent
    rw [hrun]
    subst hout
    simp [settleState, hcontains]

/-- C2 witness: three concurrent callers over an empty cache with a
successful acquisition: one request, all three resolve to `"tok"`, the
in-flight marker ends cleared and the token cached. -/
theorem getAccessToken_single_flight_witness :
    (runConcurrent 0 3 ⟨none, false, 0⟩ (.ok ⟨"tok", 100000, "Bearer"⟩)).1.requests = 1 ∧
    (runConcurrent 0 3 ⟨none, false, 0⟩ (.ok ⟨"tok", 100000, "Bearer"⟩)).1.inflight = false ∧
    (runConcurrent 0 3 ⟨none, false, 0⟩ (.ok ⟨"tok", 100000, "Bearer"⟩)).2
      = List.replicate 3 (.ok "tok") ∧
    (runConcurrent 0 3 ⟨none, false, 0⟩ (.ok ⟨"tok", 100000, "Bearer"⟩)).1.token
      = some ⟨"tok", 100000, "Bearer"⟩ := by
  obtain ⟨h1, h2, h3, h4⟩ := getAccessToken_single_flight 0 3 ⟨none, false, 0⟩
    (.ok ⟨"tok", 100000, "Bearer"⟩) (by decide) (fun t ht => by cases ht) rfl rfl
  exact ⟨h1, h2, h3, h4 ⟨"tok", 100000, "Bearer"⟩ rfl⟩

end OAuthClient

namespace CarrierIntegrationService

/-- Helper: flattening with failures replaced by `[]` equals the
concatenation of the succeeding carriers' quote lists. -/
theorem flatten_caughtQuotes (carriers : List CarrierRun) :
    (carriers.map caughtQuotes).flatten
      = (carriers.filterMap (fun c =>
          match c.outcome with
          | .ok qs => some qs
          | .error _ => none)).flatten := by
  induction carriers with
  | nil => rfl
  | cons c rest ih =>
      cases hout : c.outcome with
      | ok qs => simp [caughtQuotes, hout, ih]
      | error e => simp [caughtQuotes, hout, ih]

/-- C9: for a valid request and a facade configured with at least two
carriers of which some fail and at least one succeeds, `getRates`
returns exactly the concatenation of the succeeding carriers' quotes
(failing carriers contribute nothing) and propagates no per-carrier
failure. -/
theorem getRates_aggregates_successes (request : RateRequest) (carriers : List CarrierRun)
    (hval : validRateRequest request = true) (_hlen : 2 ≤ carriers.length)
    (_hfail : ∃ c ∈ carriers, ∃ e, c.outcome = .error e)
    (_hsucc : ∃ c ∈ carriers, ∃ qs, c.outcome = .ok qs) :
    getRates request carriers
      = .ok ((carriers.filterMap (fun c =>
          match c.outcome with
          | .ok qs => some qs
          | .error _ => none)).flatten) := by
  unfold getRates
  rw [if_pos hval, flatten_caughtQuotes]

/-- C9 witness: one failing and one succeeding carrier; the facade
returns exactly the succeeding list and no error. -/
theorem getRates_aggregates_successes_witness :
    getRates
        ⟨⟨["1 Main St"], "Springfield", "IL", "62701", "US"⟩,
         ⟨["2 Oak Ave"], "Columbus", "OH", "43004", "US"⟩,
         [⟨5, none⟩], none⟩
        [⟨"UPS", .error (.carrier ⟨ErrorCode.CARRIER_UNAVAILABLE, "down", none⟩)⟩,
         ⟨"FEDEX", .ok [⟨"FEDEX", "G", "Ground", .num 7, "USD", some 3⟩]⟩]
      = .ok [⟨"FEDEX", "G", "Ground", .num 7, "USD", some 3⟩] := by
  rw [getRates_aggregates_successes
    ⟨⟨["1 Main St"], "Springfield", "IL", "62701", "US"⟩,
     ⟨["2 Oak Ave"], "Columbus", "OH", "43004", "US"⟩,
     [⟨5, none⟩], none⟩
    [⟨"UPS", .error (.carrier ⟨ErrorCode.CARRIER_UNAVAILABLE, "down", none⟩)⟩,
     ⟨"FEDEX", .ok [⟨"FEDEX", "G", "Ground", .num 7, "USD", some 3⟩]⟩]
    (by decide) (by decide)
    ⟨⟨"UPS", .error (.carrier ⟨ErrorCode.CARRIER_UNAVAILABLE, "down", none⟩)⟩,
      by decide, ⟨.carrier ⟨ErrorCode.CARRIER_UNAVAILABLE, "down", none⟩, rfl⟩⟩
    ⟨⟨"FEDEX", .ok [⟨"FEDEX", "G", "Ground", .num 7, "USD", some 3⟩]⟩,
      by decide, ⟨[⟨"FEDEX", "G", "Ground", .num 7, "USD", some 3⟩], rfl⟩⟩]
  decide

end CarrierIntegrationService

namespace UPSAdapter

/-- Helper: the integer ceiling computation used for `estimatedDays` is
the mathematical ceiling of the rational quotient by a day of
milliseconds. -/
theorem jsCeilDiv_msPerDay_eq_ceil (x : ℤ) :
    jsCeilDiv x msPerDay = ⌈(x : ℚ) / (86400000 : ℚ)⌉ := by
  have hfloor : ⌊((-x : ℤ) : ℚ) / ((86400000 : ℕ) : ℚ)⌋ = (-x) / ((86400000 : ℕ) : ℤ) :=
    Rat.floor_intCast_div_natCast (-x) 86400000
  have h1 : -((x : ℚ) / (86400000 : ℚ)) = ((-x : ℤ) : ℚ) / ((86400000 : ℕ) : ℚ) := by
    push_cast
    ring
  have h2 : ⌈(x : ℚ) / (86400000 : ℚ)⌉ = -⌊-((x : ℚ) / (86400000 : ℚ))⌋ := by
    rw [Int.floor_neg, neg_neg]
  have h3 : ((86400000 : ℕ) : ℤ) = msPerDay := by norm_num [msPerDay]
  rw [h2, h1, hfloor, h3]
  rfl

/-- Helper: `estimatedDaysFrom` in terms of the mathematical ceiling of
days between `now` and the delivery instant. -/
theorem estimatedDaysFrom_eq_ceil (now d : ℤ) :
    estimatedDaysFrom now d
      = (if ⌈((d - now : ℤ) : ℚ) / (86400000 : ℚ)⌉ < 0 then none
         else some ⌈((d - now : ℤ) : ℚ) / (86400000 : ℚ)⌉) := by
  unfold estimatedDaysFrom
  simp only [jsCeilDiv_msPerDay_eq_ceil]

/-- C8: a status-200 success envelope (`ResponseStatus.Code = "1"`)
whose rated-shipment list is absent or empty yields an empty quote
list, not an error. -/
theorem transformResponse_empty_shipments (now : Int) (rr : UPSRateResponseInner)
    (hcode : (rr.Response.bind UPSResponseMeta.ResponseStatus).bind UPSResponseStatus.Code
      = some "1")
    (hempty : rr.RatedShipment = none ∨ rr.RatedShipment = some []) :
    transformResponse now ⟨some rr⟩ = .ok [] := by
  rcases hempty with h | h <;> simp [transformResponse, hcode, h]

/-- C8 witness: concrete success envelopes, one with the list absent
and one with it empty. -/
theorem transformResponse_empty_shipments_witness :
    transformResponse 0 ⟨some ⟨some ⟨some ⟨some "1", none⟩, none⟩, none⟩⟩ = .ok [] ∧
    transformResponse 0 ⟨some ⟨some ⟨some ⟨some "1", none⟩, none⟩, some []⟩⟩ = .ok [] :=
  ⟨transformResponse_empty_shipments 0 ⟨some ⟨some ⟨some "1", none⟩, none⟩, none⟩
      rfl (Or.inl rfl),
    transformResponse_empty_shipments 0 ⟨some ⟨some ⟨some "1", none⟩, none⟩, some []⟩
      rfl (Or.inr rfl)⟩

/-- C6 counterexample: a success envelope with one rated shipment whose
guaranteed-delivery instant equals `now` produces a quote with
`estimatedDays = some 0` — the zero estimate is reported, not omitted
as the claim states. -/
theorem estimatedDays_zero_reported_counterexample :
    transformResponse 0
        ⟨some ⟨some ⟨some ⟨some "1", none⟩, none⟩,
          some [⟨some ⟨some "03", some "Ground"⟩, none,
                some ⟨some "USD", some "10"⟩, some ⟨some 0⟩⟩]⟩⟩
      = .ok [⟨"UPS", "03", "Ground", .num 10, "USD", some 0⟩] ∧
    RateQuote.estimatedDays ⟨"UPS", "03", "Ground", .num 10, "USD", some 0⟩ ≠ none := by
  constructor
  · decide
  · decide

/-- C6 (amended): for every rated-shipment entry carrying a
guaranteed-delivery date that yields a quote, `estimatedDays` is the
ceiling of (delivery date − now) in whole days whenever that ceiling is
non-negative, and is omitted exactly when the ceiling is negative; a
zero ceiling is reported as `0`, not omitted. -/
theorem estimatedDays_ceiling_neg_omitted (now : Int) (s : UPSRatedShipment) (d : Int)
    (q : RateQuote) (hG : s.GuaranteedDelivery = some ⟨some d⟩)
    (hq : shipmentToQuote now s = .ok q) :
    q.estimatedDays
      = (if ⌈((d - now : ℤ) : ℚ) / (86400000 : ℚ)⌉ < 0 then none
         else some ⌈((d - now : ℤ) : ℚ) / (86400000 : ℚ)⌉) := by
  rw [← estimatedDaysFrom_eq_ceil]
  unfold shipmentToQuote at hq
  simp only [hG] at hq
  split at hq
  · cases hq
  · split at hq
    · cases hq
    · split at hq
      · cases hq
      · split at hq
        · cases hq
        · cases hq
          rfl

/-- C6 (amended) witness: a shipment due in 36 hours yields
`estimatedDays = some 2` (ceiling of 1.5 days). -/
theorem estimatedDays_ceiling_neg_omitted_witness :
    shipmentToQuote 0
        ⟨some ⟨some "01", some "Next Day"⟩, none,
          some ⟨some "USD", some "25"⟩, some ⟨some 129600000⟩⟩
      = .ok ⟨"UPS", "01", "Next Day", .num 25, "USD", some 2⟩ ∧
    RateQuote.estimatedDays ⟨"UPS", "01", "Next Day", .num 25, "USD", some 2⟩
      = (if ⌈((129600000 - 0 : ℤ) : ℚ) / (86400000 : ℚ)⌉ < 0 then none
         else some ⌈((129600000 - 0 : ℤ) : ℚ) / (86400000 : ℚ)⌉) := by
  constructor
  · decide
  · exact estimatedDays_ceiling_neg_omitted 0
      ⟨some ⟨some "01", some "Next Day"⟩, none,
        some ⟨some "USD", some "25"⟩, some ⟨some 129600000⟩⟩
      129600000 ⟨"UPS", "01", "Next Day", .num 25, "USD", some 2⟩ rfl (by decide)

/-- Helper: every error `shipmentToQuote` produces carries the
MALFORMED_RESPONSE code. -/
theorem shipmentToQuote_error_code (now : Int) (s : UPSRatedShipment) (e : CIError)
    (h : shipmentToQuote now s = .error e) : e.code = ErrorCode.MALFORMED_RESPONSE := by
  unfold shipmentToQuote at h
  split at h
  · cases h; rfl
  · split at h
    · cases h; rfl
    · split at h
      · cases h; rfl
      · split at h
        · cases h; rfl
        · cases h

/-- Helper: a list containing a shipment on which the per-shipment
transform throws makes the whole map throw, with a
MALFORMED_RESPONSE-coded error. -/
theorem mapShipments_error_of_mem (now : Int) (l : List UPSRatedShipment)
    (s : UPSRatedShipment) (hmem : s ∈ l) (e : CIError)
    (hbad : shipmentToQuote now s = .error e) :
    ∃ e2, mapShipments now l = .error e2 ∧ e2.code = ErrorCode.MALFORMED_RESPONSE := by
  induction l with
  | nil => cases hmem
  | cons a rest ih =>
    cases hmem with
    | head =>
        exact ⟨e, by rw [mapShipments, hbad], shipmentToQuote_error_code now s e hbad⟩
    | tail _ hmem2 =>
        cases ha : shipmentToQuote now a with
        | error ea =>
            exact ⟨ea, by rw [mapShipments, ha], shipmentToQuote_error_code now a ea ha⟩
        | ok qa =>
            obtain ⟨e2, h1, h2⟩ := ih hmem2
            refine ⟨e2, ?_, h2⟩
            rw [mapShipments, ha, h1]

/-- C7: cost selection and parse-failure behavior.  The cost comes from
`TotalCharges`, falling back to `TransportationCharges`; a missing or
empty monetary value, or one that does not parse to a non-NaN number,
fails the call with MALFORMED_RESPONSE. -/
theorem cost_selection_and_parse (now : Int) (s : UPSRatedShipment) :
    (∀ c mv v, s.TotalCharges = some c → c.MonetaryValue = some mv → mv ≠ "" →
      parseFloat mv = some v →
      ∃ q, shipmentToQuote now s = .ok q ∧ q.totalCost = v ∧
        q.currency = orDefault c.CurrencyCode "USD") ∧
    (∀ c mv v, s.TotalCharges = none → s.TransportationCharges = some c →
      c.MonetaryValue = some mv → mv ≠ "" → parseFloat mv = some v →
      ∃ q, shipmentToQuote now s = .ok q ∧ q.totalCost = v) ∧
    ((chargesOf s = none ∨
        ∃ c, chargesOf s = some c ∧ (c.MonetaryValue = none ∨ c.MonetaryValue = some "")) →
      shipmentToQuote now s = .error ⟨ErrorCode.MALFORMED_RESPONSE,
        "UPS response missing charge information", none⟩) ∧
    (∀ c mv, chargesOf s = some c → c.MonetaryValue = some mv → mv ≠ "" →
      parseFloat mv = none →
      shipmentToQuote now s = .error ⟨ErrorCode.MALFORMED_RESPONSE,
        "Invalid cost value: " ++ mv, none⟩) ∧
    (∀ rr l, rr.RatedShipment = some l → s ∈ l →
      (rr.Response.bind UPSResponseMeta.ResponseStatus).bind UPSResponseStatus.Code
        = some "1" →
      (∃ e, shipmentToQuote now s = .error e) →
      ∃ e2, transformResponse now ⟨some rr⟩ = .error e2 ∧
        e2.code = ErrorCode.MALFORMED_RESPONSE) := by
  have hchargesTC : ∀ c, s.TotalCharges = some c → chargesOf s = some c := by
    intro c h
    unfold chargesOf
    rw [h]
  have hchargesTR : ∀ c, s.TotalCharges = none → s.TransportationCharges = some c →
      chargesOf s = some c := by
    intro c h1 h2
    unfold chargesOf
    rw [h1, h2]
  refine ⟨?_, ?_, ?_, ?_, ?_⟩
  · rintro c mv v hTC hmv hne hpf
    have hc := hchargesTC c hTC
    simp [shipmentToQuote, hc, hmv, hne, hpf]
  · rintro c mv v hTC hTR hmv hne hpf
    have hc := hchargesTR c hTC hTR
    simp [shipmentToQuote, hc, hmv, hne, hpf]
  · rintro (hc | ⟨c, hc, hmv | hmv⟩)
    · simp [shipmentToQuote, hc]
    · simp [shipmentToQuote, hc, hmv]
    · simp [shipmentToQuote, hc, hmv]
  · rintro c mv hc hmv hne hpf
    simp [shipmentToQuote, hc, hmv, hne, hpf]
  · rintro rr l hl hmem hcode ⟨e, hbad⟩
    obtain ⟨e2, h1, h2⟩ := mapShipments_error_of_mem now l s hmem e hbad
    have hlen : l.length ≠ 0 := by
      have hnil : l ≠ [] := List.ne_nil_of_mem hmem
      simpa [List.length_eq_zero] using hnil
    refine ⟨e2, ?_, h2⟩
    simp [transformResponse, hcode, hl, hlen, h1]

/-- C7 witness: `TotalCharges` preferred over `TransportationCharges`;
fallback used when `TotalCharges` is absent; `MonetaryValue = "abc"`
fails the whole success-envelope call with MALFORMED_RESPONSE. -/
theorem cost_selection_and_parse_witness :
    (∃ q, shipmentToQuote 0
        ⟨none, some ⟨some "USD", some "99"⟩, some ⟨some "USD", some "12"⟩, none⟩ = .ok q ∧
      q.totalCost = JsFloat.num 12 ∧ q.currency = orDefault (some "USD") "USD") ∧
    (∃ q, shipmentToQuote 0
        ⟨none, some ⟨some "USD", some "7"⟩, none, none⟩ = .ok q ∧
      q.totalCost = JsFloat.num 7) ∧
    shipmentToQuote 0 ⟨none, none, some ⟨some "USD", some "abc"⟩, none⟩
      = .error ⟨ErrorCode.MALFORMED_RESPONSE, "Invalid cost value: abc", none⟩ ∧
    (∃ e2, transformResponse 0
        ⟨some ⟨some ⟨some ⟨some "1", none⟩, none⟩,
          some [⟨none, none, some ⟨some "USD", some "abc"⟩, none⟩]⟩⟩
      = .error e2 ∧ e2.code = ErrorCode.MALFORMED_RESPONSE) := by
  refine ⟨?_, ?_, ?_, ?_⟩
  · exact (cost_selection_and_parse 0
      ⟨none, some ⟨some "USD", some "99"⟩, some ⟨some "USD", some "12"⟩, none⟩).1
      ⟨some "USD", some "12"⟩ "12" (JsFloat.num 12) rfl rfl (by decide) (by decide)
  · exact (cost_selection_and_parse 0
      ⟨none, some ⟨some "USD", some "7"⟩, none, none⟩).2.1
      ⟨some "USD", some "7"⟩ "7" (JsFloat.num 7) rfl rfl rfl (by decide) (by decide)
  · exact (cost_selection_and_parse 0
      ⟨none, none, some ⟨some "USD", some "abc"⟩, none⟩).2.2.2.1
      ⟨some "USD", some "abc"⟩ "abc" rfl rfl (by decide) (by decide)
  · exact (cost_selection_and_parse 0
      ⟨none, none, some ⟨some "USD", some "abc"⟩, none⟩).2.2.2.2
      ⟨some ⟨some ⟨some "1", none⟩, none⟩, some [⟨none, none, some ⟨some "USD", some "abc"⟩, none⟩]⟩
      [⟨none, none, some ⟨some "USD", some "abc"⟩, none⟩] rfl (by decide) rfl
      ⟨⟨ErrorCode.MALFORMED_RESPONSE, "Invalid cost value: abc", none⟩, by decide⟩

/-- Helper: `a || d` keeps a truthy `a`. -/
theorem orDefault_of_truthy (s d : String) (h : s ≠ "") : orDefault (some s) d = s := by
  simp [orDefault, h]

/-- Helper: `a || d` falls through on a falsy `a`. -/
theorem orDefault_of_falsy (o : Option String) (d : String) (h : truthyStr o = false) :
    orDefault o d = d := by
  cases o with
  | none => rfl
  | some s =>
      simp [truthyStr] at h
      simp [orDefault, h]

/-- Helper: the catch block is the identity on errors already classified
inside the try block. -/
theorem classifyCatch_liftCI (r : Except CIError (List RateQuote)) :
    classifyCatch (liftCI r) = r := by
  cases r <;> rfl

/-- C4: classification of the first rating dispatch.  Status 429 →
RATE_LIMITED; status ≥ 500 → CARRIER_UNAVAILABLE; any other status that
is not 200/401/429 → INVALID_REQUEST; transport timeout → TIMEOUT;
other transport failure → NETWORK_ERROR with the original error as
cause; 200 without a `RateResponse` envelope → MALFORMED_RESPONSE; 200
with envelope code ≠ "1" → INVALID_REQUEST carrying the carrier
description with precedence `ResponseStatus.Description`, then
`Alert[0].Description`, then a generic unknown-error string. -/
theorem first_dispatch_classification (env : AdapterEnv) (cached : Option OAuthToken)
    (tok : String) :
    (∀ r, env.first = .ok r → r.status = 429 →
      (getRates env cached tok).result
        = .error ⟨ErrorCode.RATE_LIMITED, "UPS API rate limit exceeded", none⟩) ∧
    (∀ r, env.first = .ok r → 500 ≤ r.status →
      (getRates env cached tok).result
        = .error ⟨ErrorCode.CARRIER_UNAVAILABLE,
            "UPS API returned server error: " ++ toString r.status, none⟩) ∧
    (∀ r, env.first = .ok r → r.status ≠ 200 → r.status ≠ 401 → r.status ≠ 429 →
      r.status < 500 →
      (getRates env cached tok).result
        = .error ⟨ErrorCode.INVALID_REQUEST,
            "UPS API returned error status: " ++ toString r.status, none⟩) ∧
    (env.first = .error (.plain "Request timeout") →
      (getRates env cached tok).result
        = .error ⟨ErrorCode.TIMEOUT, "UPS API request timed out", some "Request timeout"⟩) ∧
    (∀ m, env.first = .error (.plain m) → m ≠ "Request timeout" →
      (getRates env cached tok).result
        = .error ⟨ErrorCode.NETWORK_ERROR,
            "Network error communicating with UPS API", some m⟩) ∧
    (∀ r, env.first = .ok r → r.status = 200 → r.body.RateResponse = none →
      (getRates env cached tok).result
        = .error ⟨ErrorCode.MALFORMED_RESPONSE, "UPS response missing RateResponse", none⟩) ∧
    (∀ r rr d, env.first = .ok r → r.status = 200 → r.body.RateResponse = some rr →
      (rr.Response.bind UPSResponseMeta.ResponseStatus).bind UPSResponseStatus.Code
        ≠ some "1" →
      (rr.Response.bind UPSResponseMeta.ResponseStatus).bind UPSResponseStatus.Description
        = some d → d ≠ "" →
      (getRates env cached tok).result
        = .error ⟨ErrorCode.INVALID_REQUEST, "UPS API error: " ++ d, none⟩) ∧
    (∀ r rr d, env.first = .ok r → r.status = 200 → r.body.RateResponse = some rr →
      (rr.Response.bind UPSResponseMeta.ResponseStatus).bind UPSResponseStatus.Code
        ≠ some "1" →
      truthyStr ((rr.Response.bind UPSResponseMeta.ResponseStatus).bind
        UPSResponseStatus.Description) = false →
      ((rr.Response.bind UPSResponseMeta.Alert).bind List.head?).bind UPSAlert.Description
        = some d → d ≠ "" →
      (getRates env cached tok).result
        = .error ⟨ErrorCode.INVALID_REQUEST, "UPS API error: " ++ d, none⟩) ∧
    (∀ r rr, env.first = .ok r → r.status = 200 → r.body.RateResponse = some rr →
      (rr.Response.bind UPSResponseMeta.ResponseStatus).bind UPSResponseStatus.Code
        ≠ some "1" →
      truthyStr ((rr.Response.bind UPSResponseMeta.ResponseStatus).bind
        UPSResponseStatus.Description) = false →
      truthyStr (((rr.Response.bind UPSResponseMeta.Alert).bind List.head?).bind
        UPSAlert.Description) = false →
      (getRates env cached tok).result
        = .error ⟨ErrorCode.INVALID_REQUEST, "UPS API error: Unknown UPS error", none⟩) := by
  refine ⟨?_, ?_, ?_, ?_, ?_, ?_, ?_, ?_, ?_⟩
  · rintro r hfirst hst
    simp [getRates, hfirst, hst]
  · rintro r hfirst hst
    have h401 : ¬(r.status = 401) := by omega
    have h429 : ¬(r.status = 429) := by omega
    simp [getRates, hfirst, h401, h429, hst]
  · rintro r hfirst h200 h401 h429 h500
    have h500n : ¬(500 ≤ r.status) := by omega
    simp [getRates, hfirst, h401, h429, h500n, h200]
  · intro hfirst
    simp [getRates, hfirst, classifyCatch]
  · rintro m hfirst hm
    simp [getRates, hfirst, classifyCatch, hm]
  · rintro r hfirst hst hbody
    have h401 : ¬((401 : ℤ) = 401) → False := fun h => h rfl
    simp [getRates, hfirst, hst, classifyCatch_liftCI, transformResponse, hbody]
  · rintro r rr d hfirst hst hbody hcode hdesc hdne
    simp [getRates, hfirst, hst, classifyCatch_liftCI, transformResponse, hbody, hcode,
      descFallback, hdesc, orDefault_of_truthy d _ hdne]
  · rintro r rr d hfirst hst hbody hcode hdesc halert hdne
    simp [getRates, hfirst, hst, classifyCatch_liftCI, transformResponse, hbody, hcode,
      descFallback, orDefault_of_falsy _ _ hdesc, halert, orDefault_of_truthy d _ hdne]
  · rintro r rr hfirst hst hbody hcode hdesc halert
    simp [getRates, hfirst, hst, classifyCatch_liftCI, transformResponse, hbody, hcode,
      descFallback, orDefault_of_falsy _ _ hdesc, orDefault_of_falsy _ _ halert]

/-- C4 witness: one concrete instance per classification branch. -/
theorem first_dispatch_classification_witness :
    (getRates ⟨0, .ok ⟨429, ⟨none⟩⟩, .error (.plain "x"), .error (.plain "x")⟩ none "t").result
      = .error ⟨ErrorCode.RATE_LIMITED, "UPS API rate limit exceeded", none⟩ ∧
    (getRates ⟨0, .ok ⟨503, ⟨none⟩⟩, .error (.plain "x"), .error (.plain "x")⟩ none "t").result
      = .error ⟨ErrorCode.CARRIER_UNAVAILABLE, "UPS API returned server error: 503", none⟩ ∧
    (getRates ⟨0, .ok ⟨404, ⟨none⟩⟩, .error (.plain "x"), .error (.plain "x")⟩ none "t").result
      = .error ⟨ErrorCode.INVALID_REQUEST, "UPS API returned error status: 404", none⟩ ∧
    (getRates ⟨0, .error (.plain "Request timeout"), .error (.plain "x"),
        .error (.plain "x")⟩ none "t").result
      = .error ⟨ErrorCode.TIMEOUT, "UPS API request timed out", some "Request timeout"⟩ ∧
    (getRates ⟨0, .error (.plain "ECONNRESET"), .error (.plain "x"),
        .error (.plain "x")⟩ none "t").result
      = .error ⟨ErrorCode.NETWORK_ERROR, "Network error communicating with UPS API",
          some "ECONNRESET"⟩ ∧
    (getRates ⟨0, .ok ⟨200, ⟨none⟩⟩, .error (.plain "x"), .error (.plain "x")⟩ none "t").result
      = .error ⟨ErrorCode.MALFORMED_RESPONSE, "UPS response missing RateResponse", none⟩ ∧
    (getRates ⟨0, .ok ⟨200, ⟨some ⟨some ⟨some ⟨some "0", some "Invalid postal"⟩, none⟩, none⟩⟩⟩,
        .error (.plain "x"), .error (.plain "x")⟩ none "t").result
      = .error ⟨ErrorCode.INVALID_REQUEST, "UPS API error: Invalid postal", none⟩ ∧
    (getRates ⟨0, .ok ⟨200, ⟨some ⟨some ⟨some ⟨some "0", none⟩,
          some [⟨some "110002", some "Alert text"⟩]⟩, none⟩⟩⟩,
        .error (.plain "x"), .error (.plain "x")⟩ none "t").result
      = .error ⟨ErrorCode.INVALID_REQUEST, "UPS API error: Alert text", none⟩ ∧
    (getRates ⟨0, .ok ⟨200, ⟨some ⟨none, none⟩⟩⟩, .error (.plain "x"),
        .error (.plain "x")⟩ none "t").result
      = .error ⟨ErrorCode.INVALID_REQUEST, "UPS API error: Unknown UPS error", none⟩ := by
  refine ⟨?_, ?_, ?_, ?_, ?_, ?_, ?_, ?_, ?_⟩
  · exact (first_dispatch_classification
      ⟨0, .ok ⟨429, ⟨none⟩⟩, .error (.plain "x"), .error (.plain "x")⟩ none "t").1
      ⟨429, ⟨none⟩⟩ rfl rfl
  · exact (first_dispatch_classification
      ⟨0, .ok ⟨503, ⟨none⟩⟩, .error (.plain "x"), .error (.plain "x")⟩ none "t").2.1
      ⟨503, ⟨none⟩⟩ rfl (by decide)
  · exact (first_dispatch_classification
      ⟨0, .ok ⟨404, ⟨none⟩⟩, .error (.plain "x"), .error (.plain "x")⟩ none "t").2.2.1
      ⟨404, ⟨none⟩⟩ rfl (by decide) (by decide) (by decide) (by decide)
  · exact (first_dispatch_classification
      ⟨0, .error (.plain "Request timeout"), .error (.plain "x"),
        .error (.plain "x")⟩ none "t").2.2.2.1 rfl
  · exact (first_dispatch_classification
      ⟨0, .error (.plain "ECONNRESET"), .error (.plain "x"),
        .error (.plain "x")⟩ none "t").2.2.2.2.1 "ECONNRESET" rfl (by decide)
  · exact (first_dispatch_classification
      ⟨0, .ok ⟨200, ⟨none⟩⟩, .error (.plain "x"), .error (.plain "x")⟩ none "t").2.2.2.2.2.1
      ⟨200, ⟨none⟩⟩ rfl rfl rfl
  · exact (first_dispatch_classification
      ⟨0, .ok ⟨200, ⟨some ⟨some ⟨some ⟨some "0", some "Invalid postal"⟩, none⟩, none⟩⟩⟩,
        .error (.plain "x"), .error (.plain "x")⟩ none "t").2.2.2.2.2.2.1
      ⟨200, ⟨some ⟨some ⟨some ⟨some "0", some "Invalid postal"⟩, none⟩, none⟩⟩⟩
      ⟨some ⟨some ⟨some "0", some "Invalid postal"⟩, none⟩, none⟩ "Invalid postal"
      rfl rfl rfl (by decide) rfl (by decide)
  · exact (first_dispatch_classification
      ⟨0, .ok ⟨200, ⟨some ⟨some ⟨some ⟨some "0", none⟩,
          some [⟨some "110002", some "Alert text"⟩]⟩, none⟩⟩⟩,
        .error (.plain "x"), .error (.plain "x")⟩ none "t").2.2.2.2.2.2.2.1
      ⟨200, ⟨some ⟨some ⟨some ⟨some "0", none⟩,
        some [⟨some "110002", some "Alert text"⟩]⟩, none⟩⟩⟩
      ⟨some ⟨some ⟨some "0", none⟩, some [⟨some "110002", some "Alert text"⟩]⟩, none⟩
      "Alert text" rfl rfl rfl (by decide) (by decide) rfl (by decide)
  · exact (first_dispatch_classification
      ⟨0, .ok ⟨200, ⟨some ⟨none, none⟩⟩⟩, .error (.plain "x"),
        .error (.plain "x")⟩ none "t").2.2.2.2.2.2.2.2
      ⟨200, ⟨some ⟨none, none⟩⟩⟩ ⟨none, none⟩
      rfl rfl rfl (by decide) (by decide) (by decide)

/-- C1 counterexample: first dispatch 401, re-acquisition succeeds, and
the retried dispatch comes back with HTTP status 429 but a success-
envelope body.  A first attempt with status 429 would fail with
RATE_LIMITED, yet the call returns the quotes: the retry response's
body is transformed directly and its HTTP status is never classified. -/
theorem retry_status_not_reclassified_counterexample :
    (getRates ⟨0, .ok ⟨401, ⟨none⟩⟩,
        .ok ⟨200, ⟨some "tok2", some "Bearer", some 3600⟩⟩,
        .ok ⟨429, ⟨some ⟨some ⟨some ⟨some "1", none⟩, none⟩,
          some [⟨some ⟨some "03", some "Ground"⟩, none,
            some ⟨some "USD", some "10"⟩, none⟩]⟩⟩⟩⟩ none "tok1").result
      = .ok [⟨"UPS", "03", "Ground", .num 10, "USD", none⟩] ∧
    (getRates ⟨0, .ok ⟨401, ⟨none⟩⟩,
        .ok ⟨200, ⟨some "tok2", some "Bearer", some 3600⟩⟩,
        .ok ⟨429, ⟨some ⟨some ⟨some ⟨some "1", none⟩, none⟩,
          some [⟨some ⟨some "03", some "Ground"⟩, none,
            some ⟨some "USD", some "10"⟩, none⟩]⟩⟩⟩⟩ none "tok1").result
      ≠ .error ⟨ErrorCode.RATE_LIMITED, "UPS API rate limit exceeded", none⟩ := by
  constructor
  · decide
  · decide

/-- C1 (amended): on a 401 first dispatch the adapter clears the cached
token, re-acquires one, and retries exactly once with the new token; no
third dispatch is ever attempted.  The retried response's body is
passed directly to the response transformation without re-applying HTTP
status classification (a success envelope yields quotes regardless of
the retry's status; transform-level errors propagate); transport-level
errors raised by the retry, and a failed re-acquisition, are classified
as on a first attempt. -/
theorem retry_once_with_new_token (env : AdapterEnv) (cached : Option OAuthToken)
    (tok0 : String) (r : HttpResponse UPSRateResponse)
    (hfirst : env.first = .ok r) (h401 : r.status = 401) :
    (getRates env cached tok0).dispatchTokens.length ≤ 2 ∧
    (∀ e, (OAuthClient.getAccessToken env.now none env.tokenResp).result = .error e →
      (getRates env cached tok0).result = classifyCatch (.error e) ∧
      (getRates env cached tok0).dispatchTokens = [tok0]) ∧
    (∀ newTok, (OAuthClient.getAccessToken env.now none env.tokenResp).result = .ok newTok →
      (getRates env cached tok0).dispatchTokens = [tok0, newTok] ∧
      (getRates env cached tok0).oauthToken
        = (OAuthClient.getAccessToken env.now none env.tokenResp).token ∧
      (∀ e, env.retry = .error e →
        (getRates env cached tok0).result = classifyCatch (.error e)) ∧
      (∀ r2, env.retry = .ok r2 →
        (getRates env cached tok0).result = transformResponse env.now r2.body)) := by
  refine ⟨?_, ?_, ?_⟩
  · cases hres : (OAuthClient.getAccessToken env.now none env.tokenResp).result with
    | error e => simp [getRates, hfirst, h401, hres]
    | ok newTok =>
        cases hretry : env.retry <;> simp [getRates, hfirst, h401, hres, hretry]
  · rintro e hres
    constructor <;> simp [getRates, hfirst, h401, hres]
  · rintro newTok hres
    refine ⟨?_, ?_, ?_, ?_⟩
    · cases hretry : env.retry <;> simp [getRates, hfirst, h401, hres, hretry]
    · cases hretry : env.retry <;> simp [getRates, hfirst, h401, hres, hretry]
    · rintro e2 hretry
      simp [getRates, hfirst, h401, hres, hretry]
    · rintro r2 hretry
      simp [getRates, hfirst, h401, hres, hretry, classifyCatch_liftCI]

/-- C1 (amended) witness: 401 then a successful re-acquisition of
`"tokB"`; both dispatches and their bearer tokens are visible in the
trace, and the retry's success envelope is transformed directly. -/
theorem retry_once_with_new_token_witness :
    (getRates ⟨0, .ok ⟨401, ⟨none⟩⟩,
        .ok ⟨200, ⟨some "tokB", some "Bearer", some 3600⟩⟩,
        .ok ⟨200, ⟨some ⟨some ⟨some ⟨some "1", none⟩, none⟩, none⟩⟩⟩⟩
      none "tokA").dispatchTokens = ["tokA", "tokB"] ∧
    (getRates ⟨0, .ok ⟨401, ⟨none⟩⟩,
        .ok ⟨200, ⟨some "tokB", some "Bearer", some 3600⟩⟩,
        .ok ⟨200, ⟨some ⟨some ⟨some ⟨some "1", none⟩, none⟩, none⟩⟩⟩⟩
      none "tokA").result
      = transformResponse 0 ⟨some ⟨some ⟨some ⟨some "1", none⟩, none⟩, none⟩⟩ := by
  obtain ⟨-, -, h3⟩ := retry_once_with_new_token
    ⟨0, .ok ⟨401, ⟨none⟩⟩, .ok ⟨200, ⟨some "tokB", some "Bearer", some 3600⟩⟩,
      .ok ⟨200, ⟨some ⟨some ⟨some ⟨some "1", none⟩, none⟩, none⟩⟩⟩⟩
    none "tokA" ⟨401, ⟨none⟩⟩ rfl rfl
  obtain ⟨hA, -, -, hD⟩ := h3 "tokB" (by decide)
  exact ⟨hA, hD ⟨200, ⟨some ⟨some ⟨some ⟨some "1", none⟩, none⟩, none⟩⟩⟩ rfl⟩

end UPSAdapter

end CarrierIntegration
